import Mathlib

/-
Shallow embedding of the data layer of the police-violations-system
repository (src/database.py).

The Python module drives a SQLite store.  The embedding models the store as
an explicit in-memory state (`DB`): each table is a list of row structures
kept in insertion (rowid) order, together with one AUTOINCREMENT counter per
table.  Each repository operation of the Python class `Database` becomes a
pure Lean function on `DB`.

Modelling decisions, all taken from the source:
* SQLite timestamps and dates are modelled as integers (seconds); REAL money
  amounts are modelled as `Int` (the claims under study are structural and do
  not depend on floating-point rounding).
* Nullable columns are `Option` types; NOT NULL columns are plain types.
* The connection never issues `PRAGMA foreign_keys = ON`, so declared FOREIGN
  KEY clauses are not enforced by SQLite: the embedding enforces no
  foreign-key checks, exactly like the running code.
* UNIQUE and CHECK constraints are enforced (SQLite does enforce those); a
  violated constraint surfaces as `sqlite3.IntegrityError` in Python, which
  `create_*` re-raise; this is the `Except.error` outcome of the `create_*`
  functions.  `update_*` catch `sqlite3.Error` and return `False`.
* Python `**kwargs` of the `update_*` methods are modelled per entity as a
  list of typed field assignments, plus an `other` constructor for any field
  name outside the Python call surface; the allow-list filter
  (`allowed_fields` in the source) becomes a boolean predicate on that type.
* Python dictionaries built by `d[k] = d.get(k, 0) + 1` are modelled as
  insertion-ordered association lists (`bump`).
* `CURRENT_TIMESTAMP` defaults and `datetime.utcnow()` stamps are modelled by
  threading an explicit `now : Int` argument.
* `ORDER BY ... DESC` is modelled by an insertion sort with a boolean
  "comes-no-later-than" relation.
-/

namespace PoliceDB

/-- Insert an element into a list sorted by the boolean relation `le`
(stable insertion, used to model SQL ORDER BY). -/
def insertBy (le : α → α → Bool) (a : α) : List α → List α
  | [] => [a]
  | b :: bs => if le a b then a :: b :: bs else b :: insertBy le a bs

/-- Insertion sort by the boolean relation `le` (models SQL ORDER BY). -/
def sortBy (le : α → α → Bool) : List α → List α
  | [] => []
  | a :: as => insertBy le a (sortBy le as)

/-- Model of the Python idiom `d[k] = d.get(k, 0) + 1` on an insertion-ordered
dictionary: increment the count at key `k`, appending the key at the end when
absent (Python 3.7+ dicts preserve insertion order). -/
def bump : List (String × Nat) → String → List (String × Nat)
  | [], k => [(k, 1)]
  | (k', n) :: rest, k =>
      if k' = k then (k', n + 1) :: rest else (k', n) :: bump rest k

/-- Lookup of a count in an insertion-ordered dictionary, defaulting to 0
(Python `d.get(k, 0)`). -/
def lookupCount : List (String × Nat) → String → Nat
  | [], _ => 0
  | (k', n) :: rest, k => if k' = k then n else lookupCount rest k

/-- Row of the `users` table (src/database.py lines 38-53). -/
structure UserRow where
  user_id : Nat
  username : String
  email : String
  password_hash : String
  full_name : String
  badge_number : Option String
  role : String
  department : Option String
  phone_number : Option String
  is_active : Bool
  created_at : Int
  updated_at : Int
  deriving DecidableEq, Repr

/-- Row of the `violations` table (src/database.py lines 56-87). -/
structure ViolationRow where
  violation_id : Nat
  violation_number : String
  violator_name : String
  violator_license_number : Option String
  violator_phone : Option String
  violator_address : Option String
  violation_date : Int
  violation_type : String
  severity_level : String
  description : Option String
  location : String
  latitude : Option Int
  longitude : Option Int
  officer_id : Nat
  status : String
  fine_amount : Option Int
  paid_date : Option Int
  notes : Option String
  evidence_count : Int
  created_at : Int
  updated_at : Int
  deriving DecidableEq, Repr

/-- Row of the `seizures` table (src/database.py lines 90-119). -/
structure SeizureRow where
  seizure_id : Nat
  seizure_number : String
  violation_id : Nat
  item_description : String
  item_quantity : Int
  item_category : String
  estimated_value : Option Int
  serial_number : Option String
  storage_location : Option String
  officer_id : Nat
  seizure_date : Int
  release_date : Option Int
  release_authorized_by : Option Nat
  release_reason : Option String
  status : String
  condition_notes : Option String
  photo_evidence_urls : Option String
  created_at : Int
  updated_at : Int
  deriving DecidableEq, Repr

/-- Row of the `infractions` table (src/database.py lines 122-150). -/
structure InfractionRow where
  infraction_id : Nat
  infraction_number : String
  violation_id : Nat
  infraction_type : String
  points : Int
  description : Option String
  statute_reference : Option String
  minimum_fine : Option Int
  maximum_fine : Option Int
  status : String
  court_appearance_date : Option Int
  court_location : Option String
  case_number : Option String
  prosecutor_id : Option Nat
  judge_id : Option Nat
  outcome : Option String
  sentence_details : Option String
  probation_period_months : Option Int
  created_at : Int
  updated_at : Int
  deriving DecidableEq, Repr

/-- Row of the `evidence` table (src/database.py lines 153-179). -/
structure EvidenceRow where
  evidence_id : Nat
  evidence_number : String
  violation_id : Nat
  evidence_type : String
  description : String
  file_path : Option String
  file_size : Option Int
  mime_type : Option String
  collected_by : Nat
  collection_date : Int
  collection_location : Option String
  chain_of_custody : Option String
  storage_location : Option String
  status : String
  notes : Option String
  created_at : Int
  updated_at : Int
  deriving DecidableEq, Repr

/-- Row of the `activity_log` table (src/database.py lines 182-195). -/
structure LogRow where
  log_id : Nat
  user_id : Nat
  action_type : String
  entity_type : Option String
  entity_id : Option Nat
  description : Option String
  changes : Option String
  ip_address : Option String
  timestamp : Int
  deriving DecidableEq, Repr

/-- One per-officer line of `get_officer_performance` (GROUP BY officer_id
with COUNT(*) and SUM(fine_amount); SQL SUM is NULL when every summand is
NULL). -/
structure OfficerPerf where
  officer_id : Nat
  violations_count : Nat
  total_fines : Option Int
  deriving DecidableEq, Repr

/-- Row of the `statistics` table (src/database.py lines 198-213).  The
JSON-serialized breakdown columns are modelled structurally (serialization is
injective on them). -/
structure StatRow where
  stat_id : Nat
  date : Int
  total_violations : Nat
  total_seizures : Nat
  total_infractions : Nat
  total_fines : Int
  violations_by_type : List (String × Nat)
  violations_by_severity : List (String × Nat)
  top_violators : Option String
  officer_performance : List OfficerPerf
  created_at : Int
  updated_at : Int
  deriving DecidableEq, Repr

/-- The whole SQLite store: one list per table in rowid (insertion) order,
plus one AUTOINCREMENT counter per table. -/
structure DB where
  users : List UserRow
  violations : List ViolationRow
  seizures : List SeizureRow
  infractions : List InfractionRow
  evidence : List EvidenceRow
  activity_log : List LogRow
  statistics : List StatRow
  next_user_id : Nat
  next_violation_id : Nat
  next_seizure_id : Nat
  next_infraction_id : Nat
  next_evidence_id : Nat
  next_log_id : Nat
  next_stat_id : Nat
  deriving DecidableEq, Repr

/-- A freshly provisioned store (AUTOINCREMENT keys start at 1). -/
def emptyDB : DB :=
  { users := [], violations := [], seizures := [], infractions := []
    evidence := [], activity_log := [], statistics := []
    next_user_id := 1, next_violation_id := 1, next_seizure_id := 1
    next_infraction_id := 1, next_evidence_id := 1, next_log_id := 1
    next_stat_id := 1 }

/-- Outcome of a failed INSERT: SQLite raises `sqlite3.IntegrityError` for
both UNIQUE and CHECK failures; the two causes are distinguished here. -/
inductive DBErr where
  | uniqueConstraint
  | checkConstraint
  deriving DecidableEq, Repr

/-- CHECK domain of users.role. -/
def userRoles : List String := ["admin", "officer", "supervisor", "analyst"]

/-- CHECK domain of violations.violation_type. -/
def violationTypes : List String :=
  ["traffic", "parking", "criminal", "administrative", "other"]

/-- CHECK domain of violations.severity_level. -/
def severityLevels : List String := ["minor", "moderate", "serious", "critical"]

/-- CHECK domain of violations.status. -/
def violationStatuses : List String :=
  ["open", "closed", "appealed", "dismissed", "resolved"]

/-- CHECK domain of seizures.item_category. -/
def seizureCategories : List String :=
  ["vehicle", "documents", "contraband", "weapon", "currency", "other"]

/-- CHECK domain of seizures.status. -/
def seizureStatuses : List String :=
  ["stored", "released", "destroyed", "auctioned", "pending"]

/-- CHECK domain of infractions.status. -/
def infractionStatuses : List String :=
  ["pending", "contested", "resolved", "dismissed", "appealed"]

/-- CHECK domain of evidence.evidence_type. -/
def evidenceTypes : List String :=
  ["photo", "video", "audio", "document", "physical", "digital", "witness_statement"]

/-- CHECK domain of evidence.status. -/
def evidenceStatuses : List String :=
  ["stored", "destroyed", "released", "lost", "pending"]

/-- Python `if param:` on an optional integer filter: the WHERE condition is
added only when the argument is truthy, so `None` and `0` both skip it. -/
def optFilterNat (p : Option Nat) (field : Nat) : Bool :=
  match p with
  | none => true
  | some x => if x = 0 then true else field == x

/-- Python `if param:` on an optional string filter: `None` and `""` both
skip the WHERE condition. -/
def optFilterStr (p : Option String) (field : String) : Bool :=
  match p with
  | none => true
  | some x => if x = "" then true else field == x

/-- Optional lower bound on a date column (`field >= p` when given; a
datetime argument is always truthy in Python). -/
def optGE (p : Option Int) (field : Int) : Bool :=
  match p with
  | none => true
  | some x => decide (x ≤ field)

/-- Optional upper bound on a date column (`field <= p` when given). -/
def optLE (p : Option Int) (field : Int) : Bool :=
  match p with
  | none => true
  | some x => decide (field ≤ x)

/-- The row inserted by `Database.create_user` (INSERT column list at
src/database.py lines 233-238; omitted columns take their schema defaults). -/
def mkUserRow (id : Nat) (now : Int) (username email password_hash full_name : String)
    (role : String) (badge_number department phone_number : Option String) : UserRow :=
  { user_id := id, username, email, password_hash, full_name, badge_number
    role, department, phone_number, is_active := true
    created_at := now, updated_at := now }

/-- `Database.create_user` (src/database.py lines 228-243): plain INSERT;
SQLite enforces the role CHECK and the username/email/badge_number UNIQUE
constraints; `sqlite3.IntegrityError` is re-raised. -/
def create_user (db : DB) (now : Int) (username email password_hash full_name : String)
    (role : String) (badge_number department phone_number : Option String) :
    (Except DBErr Nat) × DB :=
  if !(userRoles.contains role) then (Except.error DBErr.checkConstraint, db)
  else if db.users.any (fun u =>
      u.username == username || u.email == email ||
      (match badge_number with
       | some b => u.badge_number == some b
       | none => false)) then
    (Except.error DBErr.uniqueConstraint, db)
  else
    (Except.ok db.next_user_id,
      { db with
        users := db.users ++
          [mkUserRow db.next_user_id now username email password_hash full_name
            role badge_number department phone_number]
        next_user_id := db.next_user_id + 1 })

/-- `Database.get_user` (src/database.py lines 245-249). -/
def get_user (db : DB) (user_id : Nat) : Option UserRow :=
  db.users.find? (fun u => u.user_id == user_id)

/-- The row inserted by `Database.create_violation` (INSERT column list at
src/database.py lines 308-317; status, evidence_count and timestamps take
their schema defaults). -/
def mkViolationRow (id : Nat) (now : Int) (violation_number violator_name : String)
    (violation_date : Int) (violation_type severity_level location : String)
    (officer_id : Nat) (violator_license_number violator_phone violator_address
      description : Option String) (latitude longitude : Option Int)
    (fine_amount : Option Int) : ViolationRow :=
  { violation_id := id, violation_number, violator_name
    violator_license_number, violator_phone, violator_address
    violation_date, violation_type, severity_level, description, location
    latitude, longitude, officer_id, status := "open", fine_amount
    paid_date := none, notes := none, evidence_count := 0
    created_at := now, updated_at := now }

/-- `Database.create_violation` (src/database.py lines 299-322): plain INSERT;
SQLite enforces the violation_type/severity_level CHECKs and the
violation_number UNIQUE constraint; the declared officer_id FOREIGN KEY is
not enforced (the connection never enables foreign keys).
`sqlite3.IntegrityError` is re-raised. -/
def create_violation (db : DB) (now : Int) (violation_number violator_name : String)
    (violation_date : Int) (violation_type severity_level location : String)
    (officer_id : Nat) (violator_license_number violator_phone violator_address
      description : Option String) (latitude longitude : Option Int)
    (fine_amount : Option Int) : (Except DBErr Nat) × DB :=
  if !(violationTypes.contains violation_type && severityLevels.contains severity_level) then
    (Except.error DBErr.checkConstraint, db)
  else if db.violations.any (fun v => v.violation_number == violation_number) then
    (Except.error DBErr.uniqueConstraint, db)
  else
    (Except.ok db.next_violation_id,
      { db with
        violations := db.violations ++
          [mkViolationRow db.next_violation_id now violation_number violator_name
            violation_date violation_type severity_level location officer_id
            violator_license_number violator_phone violator_address description
            latitude longitude fine_amount]
        next_violation_id := db.next_violation_id + 1 })

/-- `Database.get_violation` (src/database.py lines 324-328). -/
def get_violation (db : DB) (violation_id : Nat) : Option ViolationRow :=
  db.violations.find? (fun v => v.violation_id == violation_id)

/-- The row inserted by `Database.create_seizure` (INSERT column list at
src/database.py lines 392-400; release fields, status and timestamps take
their schema defaults). -/
def mkSeizureRow (id : Nat) (now : Int) (seizure_number : String) (violation_id : Nat)
    (item_description : String) (item_quantity : Int) (item_category : String)
    (officer_id : Nat) (seizure_date : Int)
    (estimated_value : Option Int) (serial_number storage_location
      condition_notes : Option String) : SeizureRow :=
  { seizure_id := id, seizure_number, violation_id, item_description
    item_quantity, item_category, estimated_value, serial_number
    storage_location, officer_id, seizure_date
    release_date := none, release_authorized_by := none, release_reason := none
    status := "stored", condition_notes, photo_evidence_urls := none
    created_at := now, updated_at := now }

/-- `Database.create_seizure` (src/database.py lines 385-405): plain INSERT
with no application-level lookup of the parent violation; SQLite enforces the
item_category CHECK and the seizure_number UNIQUE constraint, while the
declared violation_id FOREIGN KEY is not enforced (foreign keys never
enabled), so the insert succeeds even for a nonexistent parent. -/
def create_seizure (db : DB) (now : Int) (seizure_number : String) (violation_id : Nat)
    (item_description : String) (item_quantity : Int) (item_category : String)
    (officer_id : Nat) (seizure_date : Int)
    (estimated_value : Option Int) (serial_number storage_location
      condition_notes : Option String) : (Except DBErr Nat) × DB :=
  if !(seizureCategories.contains item_category) then
    (Except.error DBErr.checkConstraint, db)
  else if db.seizures.any (fun s => s.seizure_number == seizure_number) then
    (Except.error DBErr.uniqueConstraint, db)
  else
    (Except.ok db.next_seizure_id,
      { db with
        seizures := db.seizures ++
          [mkSeizureRow db.next_seizure_id now seizure_number violation_id
            item_description item_quantity item_category officer_id seizure_date
            estimated_value serial_number storage_location condition_notes]
        next_seizure_id := db.next_seizure_id + 1 })

/-- `Database.get_seizure` (src/database.py lines 407-411). -/
def get_seizure (db : DB) (seizure_id : Nat) : Option SeizureRow :=
  db.seizures.find? (fun s => s.seizure_id == seizure_id)

/-- The row inserted by `Database.create_infraction` (INSERT column list at
src/database.py lines 467-473; judicial fields, status and timestamps take
their schema defaults). -/
def mkInfractionRow (id : Nat) (now : Int) (infraction_number : String)
    (violation_id : Nat) (infraction_type : String)
    (description statute_reference : Option String) (points : Int)
    (minimum_fine maximum_fine : Option Int) : InfractionRow :=
  { infraction_id := id, infraction_number, violation_id, infraction_type
    points, description, statute_reference, minimum_fine, maximum_fine
    status := "pending", court_appearance_date := none, court_location := none
    case_number := none, prosecutor_id := none, judge_id := none
    outcome := none, sentence_details := none, probation_period_months := none
    created_at := now, updated_at := now }

/-- `Database.create_infraction` (src/database.py lines 461-478): plain INSERT
with no application-level lookup of the parent violation; SQLite enforces the
infraction_number UNIQUE constraint (infraction_type is free text, no CHECK),
while the declared violation_id FOREIGN KEY is not enforced. -/
def create_infraction (db : DB) (now : Int) (infraction_number : String)
    (violation_id : Nat) (infraction_type : String)
    (description statute_reference : Option String) (points : Int)
    (minimum_fine maximum_fine : Option Int) : (Except DBErr Nat) × DB :=
  if db.infractions.any (fun i => i.infraction_number == infraction_number) then
    (Except.error DBErr.uniqueConstraint, db)
  else
    (Except.ok db.next_infraction_id,
      { db with
        infractions := db.infractions ++
          [mkInfractionRow db.next_infraction_id now infraction_number violation_id
            infraction_type description statute_reference points
            minimum_fine maximum_fine]
        next_infraction_id := db.next_infraction_id + 1 })

/-- `Database.get_infraction` (src/database.py lines 480-484). -/
def get_infraction (db : DB) (infraction_id : Nat) : Option InfractionRow :=
  db.infractions.find? (fun i => i.infraction_id == infraction_id)

/-- The row inserted by `Database.create_evidence` (INSERT column list at
src/database.py lines 539-546; chain_of_custody, status and timestamps take
their schema defaults). -/
def mkEvidenceRow (id : Nat) (now : Int) (evidence_number : String) (violation_id : Nat)
    (evidence_type description : String) (collected_by : Nat) (collection_date : Int)
    (file_path : Option String) (file_size : Option Int)
    (mime_type collection_location storage_location notes : Option String) :
    EvidenceRow :=
  { evidence_id := id, evidence_number, violation_id, evidence_type, description
    file_path, file_size, mime_type, collected_by, collection_date
    collection_location, chain_of_custody := none, storage_location
    status := "stored", notes, created_at := now, updated_at := now }

/-- `Database.create_evidence` (src/database.py lines 531-551): plain INSERT
with no application-level lookup of the parent violation and no update of the
parent's evidence_count; SQLite enforces the evidence_type CHECK and the
evidence_number UNIQUE constraint, while the declared violation_id FOREIGN
KEY is not enforced. -/
def create_evidence (db : DB) (now : Int) (evidence_number : String) (violation_id : Nat)
    (evidence_type description : String) (collected_by : Nat) (collection_date : Int)
    (file_path : Option String) (file_size : Option Int)
    (mime_type collection_location storage_location notes : Option String) :
    (Except DBErr Nat) × DB :=
  if !(evidenceTypes.contains evidence_type) then
    (Except.error DBErr.checkConstraint, db)
  else if db.evidence.any (fun e => e.evidence_number == evidence_number) then
    (Except.error DBErr.uniqueConstraint, db)
  else
    (Except.ok db.next_evidence_id,
      { db with
        evidence := db.evidence ++
          [mkEvidenceRow db.next_evidence_id now evidence_number violation_id
            evidence_type description collected_by collection_date file_path
            file_size mime_type collection_location storage_location notes]
        next_evidence_id := db.next_evidence_id + 1 })

/-- `Database.get_evidence` (src/database.py lines 553-557). -/
def get_evidence (db : DB) (evidence_id : Nat) : Option EvidenceRow :=
  db.evidence.find? (fun e => e.evidence_id == evidence_id)

/-- A keyword argument passed to `Database.update_user`: one constructor per
column a caller can name, with the column's value type, plus `other` for any
field name outside the schema.  The allow-list filter is `uIsAllowed`. -/
inductive UUpd where
  | email (v : String)
  | full_name (v : String)
  | badge_number (v : Option String)
  | role (v : String)
  | department (v : Option String)
  | phone_number (v : Option String)
  | is_active (v : Bool)
  | username (v : String)
  | other (name : String)
  deriving DecidableEq, Repr

/-- The `allowed_fields` list of `Database.update_user`
(src/database.py lines 259-260). -/
def uIsAllowed : UUpd → Bool
  | .email _ => true
  | .full_name _ => true
  | .badge_number _ => true
  | .role _ => true
  | .department _ => true
  | .phone_number _ => true
  | .is_active _ => true
  | .username _ => false
  | .other _ => false

/-- Application of one SET assignment of the users UPDATE statement. -/
def applyUUpd (r : UserRow) : UUpd → UserRow
  | .email v => { r with email := v }
  | .full_name v => { r with full_name := v }
  | .badge_number v => { r with badge_number := v }
  | .role v => { r with role := v }
  | .department v => { r with department := v }
  | .phone_number v => { r with phone_number := v }
  | .is_active v => { r with is_active := v }
  | .username v => { r with username := v }
  | .other _ => r

/-- CHECK constraint of the users table evaluated on an updated row. -/
def userRowOk (r : UserRow) : Bool := userRoles.contains r.role

/-- UNIQUE constraints of the users table touched by the allow-listed update
fields (email, badge_number), evaluated against the non-matched rows. -/
def userUniqueOk (db : DB) (user_id : Nat) (r : UserRow) : Bool :=
  db.users.all (fun u =>
    u.user_id == user_id ||
    (!(u.email == r.email) &&
      (match r.badge_number with
       | some b => !(u.badge_number == some b)
       | none => true)))

/-- `Database.update_user` (src/database.py lines 257-276): filter kwargs by
the allow-list; an empty filtered set returns `False` before any write; else
run one UPDATE stamping updated_at, catching any `sqlite3.Error` (CHECK or
UNIQUE failure) as `False` with no change; a zero-row match still commits and
returns `True`. -/
def update_user (db : DB) (now : Int) (user_id : Nat) (kwargs : List UUpd) :
    Bool × DB :=
  if (kwargs.filter uIsAllowed).isEmpty then (false, db)
  else if db.users.all (fun r =>
      !(r.user_id == user_id) ||
      (userRowOk { (kwargs.filter uIsAllowed).foldl applyUUpd r with updated_at := now } &&
       userUniqueOk db user_id
         { (kwargs.filter uIsAllowed).foldl applyUUpd r with updated_at := now })) then
    (true, { db with
      users := db.users.map (fun r =>
        if r.user_id == user_id then
          { (kwargs.filter uIsAllowed).foldl applyUUpd r with updated_at := now }
        else r) })
  else (false, db)

/-- A keyword argument passed to `Database.update_violation`.  The allow-list
filter is `vIsAllowed`. -/
inductive VUpd where
  | violator_name (v : String)
  | violator_license_number (v : Option String)
  | violator_phone (v : Option String)
  | violator_address (v : Option String)
  | violation_type (v : String)
  | severity_level (v : String)
  | description (v : Option String)
  | location (v : String)
  | latitude (v : Option Int)
  | longitude (v : Option Int)
  | status (v : String)
  | fine_amount (v : Option Int)
  | paid_date (v : Option Int)
  | notes (v : Option String)
  | violation_number (v : String)
  | other (name : String)
  deriving DecidableEq, Repr

/-- The `allowed_fields` list of `Database.update_violation`
(src/database.py lines 332-335): note violation_number is absent. -/
def vIsAllowed : VUpd → Bool
  | .violator_name _ => true
  | .violator_license_number _ => true
  | .violator_phone _ => true
  | .violator_address _ => true
  | .violation_type _ => true
  | .severity_level _ => true
  | .description _ => true
  | .location _ => true
  | .latitude _ => true
  | .longitude _ => true
  | .status _ => true
  | .fine_amount _ => true
  | .paid_date _ => true
  | .notes _ => true
  | .violation_number _ => false
  | .other _ => false

/-- Application of one SET assignment of the violations UPDATE statement. -/
def applyVUpd (r : ViolationRow) : VUpd → ViolationRow
  | .violator_name v => { r with violator_name := v }
  | .violator_license_number v => { r with violator_license_number := v }
  | .violator_phone v => { r with violator_phone := v }
  | .violator_address v => { r with violator_address := v }
  | .violation_type v => { r with violation_type := v }
  | .severity_level v => { r with severity_level := v }
  | .description v => { r with description := v }
  | .location v => { r with location := v }
  | .latitude v => { r with latitude := v }
  | .longitude v => { r with longitude := v }
  | .status v => { r with status := v }
  | .fine_amount v => { r with fine_amount := v }
  | .paid_date v => { r with paid_date := v }
  | .notes v => { r with notes := v }
  | .violation_number v => { r with violation_number := v }
  | .other _ => r

/-- CHECK constraints of the violations table evaluated on an updated row. -/
def violationRowOk (r : ViolationRow) : Bool :=
  violationTypes.contains r.violation_type &&
  severityLevels.contains r.severity_level &&
  violationStatuses.contains r.status

/-- `Database.update_violation` (src/database.py lines 330-351): same shape
as `update_user`; no UNIQUE column is in the allow-list. -/
def update_violation (db : DB) (now : Int) (violation_id : Nat)
    (kwargs : List VUpd) : Bool × DB :=
  if (kwargs.filter vIsAllowed).isEmpty then (false, db)
  else if db.violations.all (fun r =>
      !(r.violation_id == violation_id) ||
      violationRowOk { (kwargs.filter vIsAllowed).foldl applyVUpd r with updated_at := now }) then
    (true, { db with
      violations := db.violations.map (fun r =>
        if r.violation_id == violation_id then
          { (kwargs.filter vIsAllowed).foldl applyVUpd r with updated_at := now }
        else r) })
  else (false, db)

/-- A keyword argument passed to `Database.update_seizure`.  The allow-list
filter is `sIsAllowed`. -/
inductive SUpd where
  | item_description (v : String)
  | item_quantity (v : Int)
  | item_category (v : String)
  | estimated_value (v : Option Int)
  | serial_number (v : Option String)
  | storage_location (v : Option String)
  | status (v : String)
  | condition_notes (v : Option String)
  | release_date (v : Option Int)
  | release_reason (v : Option String)
  | release_authorized_by (v : Option Nat)
  | photo_evidence_urls (v : Option String)
  | seizure_number (v : String)
  | other (name : String)
  deriving DecidableEq, Repr

/-- The `allowed_fields` list of `Database.update_seizure`
(src/database.py lines 415-418). -/
def sIsAllowed : SUpd → Bool
  | .item_description _ => true
  | .item_quantity _ => true
  | .item_category _ => true
  | .estimated_value _ => true
  | .serial_number _ => true
  | .storage_location _ => true
  | .status _ => true
  | .condition_notes _ => true
  | .release_date _ => true
  | .release_reason _ => true
  | .release_authorized_by _ => true
  | .photo_evidence_urls _ => true
  | .seizure_number _ => false
  | .other _ => false

/-- Application of one SET assignment of the seizures UPDATE statement. -/
def applySUpd (r : SeizureRow) : SUpd → SeizureRow
  | .item_description v => { r with item_description := v }
  | .item_quantity v => { r with item_quantity := v }
  | .item_category v => { r with item_category := v }
  | .estimated_value v => { r with estimated_value := v }
  | .serial_number v => { r with serial_number := v }
  | .storage_location v => { r with storage_location := v }
  | .status v => { r with status := v }
  | .condition_notes v => { r with condition_notes := v }
  | .release_date v => { r with release_date := v }
  | .release_reason v => { r with release_reason := v }
  | .release_authorized_by v => { r with release_authorized_by := v }
  | .photo_evidence_urls v => { r with photo_evidence_urls := v }
  | .seizure_number v => { r with seizure_number := v }
  | .other _ => r

/-- CHECK constraints of the seizures table evaluated on an updated row. -/
def seizureRowOk (r : SeizureRow) : Bool :=
  seizureCategories.contains r.item_category && seizureStatuses.contains r.status

/-- `Database.update_seizure` (src/database.py lines 413-434). -/
def update_seizure (db : DB) (now : Int) (seizure_id : Nat)
    (kwargs : List SUpd) : Bool × DB :=
  if (kwargs.filter sIsAllowed).isEmpty then (false, db)
  else if db.seizures.all (fun r =>
      !(r.seizure_id == seizure_id) ||
      seizureRowOk { (kwargs.filter sIsAllowed).foldl applySUpd r with updated_at := now }) then
    (true, { db with
      seizures := db.seizures.map (fun r =>
        if r.seizure_id == seizure_id then
          { (kwargs.filter sIsAllowed).foldl applySUpd r with updated_at := now }
        else r) })
  else (false, db)

/-- A keyword argument passed to `Database.update_infraction`.  The
allow-list filter is `iIsAllowed`. -/
inductive IUpd where
  | infraction_type (v : String)
  | description (v : Option String)
  | statute_reference (v : Option String)
  | points (v : Int)
  | minimum_fine (v : Option Int)
  | maximum_fine (v : Option Int)
  | status (v : String)
  | court_appearance_date (v : Option Int)
  | court_location (v : Option String)
  | case_number (v : Option String)
  | prosecutor_id (v : Option Nat)
  | judge_id (v : Option Nat)
  | outcome (v : Option String)
  | sentence_details (v : Option String)
  | probation_period_months (v : Option Int)
  | infraction_number (v : String)
  | other (name : String)
  deriving DecidableEq, Repr

/-- The `allowed_fields` list of `Database.update_infraction`
(src/database.py lines 488-491). -/
def iIsAllowed : IUpd → Bool
  | .infraction_type _ => true
  | .description _ => true
  | .statute_reference _ => true
  | .points _ => true
  | .minimum_fine _ => true
  | .maximum_fine _ => true
  | .status _ => true
  | .court_appearance_date _ => true
  | .court_location _ => true
  | .case_number _ => true
  | .prosecutor_id _ => true
  | .judge_id _ => true
  | .outcome _ => true
  | .sentence_details _ => true
  | .probation_period_months _ => true
  | .infraction_number _ => false
  | .other _ => false

/-- Application of one SET assignment of the infractions UPDATE statement. -/
def applyIUpd (r : InfractionRow) : IUpd → InfractionRow
  | .infraction_type v => { r with infraction_type := v }
  | .description v => { r with description := v }
  | .statute_reference v => { r with statute_reference := v }
  | .points v => { r with points := v }
  | .minimum_fine v => { r with minimum_fine := v }
  | .maximum_fine v => { r with maximum_fine := v }
  | .status v => { r with status := v }
  | .court_appearance_date v => { r with court_appearance_date := v }
  | .court_location v => { r with court_location := v }
  | .case_number v => { r with case_number := v }
  | .prosecutor_id v => { r with prosecutor_id := v }
  | .judge_id v => { r with judge_id := v }
  | .outcome v => { r with outcome := v }
  | .sentence_details v => { r with sentence_details := v }
  | .probation_period_months v => { r with probation_period_months := v }
  | .infraction_number v => { r with infraction_number := v }
  | .other _ => r

/-- CHECK constraint of the infractions table evaluated on an updated row. -/
def infractionRowOk (r : InfractionRow) : Bool :=
  infractionStatuses.contains r.status

/-- `Database.update_infraction` (src/database.py lines 486-507). -/
def update_infraction (db : DB) (now : Int) (infraction_id : Nat)
    (kwargs : List IUpd) : Bool × DB :=
  if (kwargs.filter iIsAllowed).isEmpty then (false, db)
  else if db.infractions.all (fun r =>
      !(r.infraction_id == infraction_id) ||
      infractionRowOk { (kwargs.filter iIsAllowed).foldl applyIUpd r with updated_at := now }) then
    (true, { db with
      infractions := db.infractions.map (fun r =>
        if r.infraction_id == infraction_id then
          { (kwargs.filter iIsAllowed).foldl applyIUpd r with updated_at := now }
        else r) })
  else (false, db)

/-- A keyword argument passed to `Database.update_evidence`.  The allow-list
filter is `eIsAllowed`. -/
inductive EUpd where
  | description (v : String)
  | storage_location (v : Option String)
  | status (v : String)
  | chain_of_custody (v : Option String)
  | notes (v : Option String)
  | evidence_number (v : String)
  | other (name : String)
  deriving DecidableEq, Repr

/-- The `allowed_fields` list of `Database.update_evidence`
(src/database.py line 569). -/
def eIsAllowed : EUpd → Bool
  | .description _ => true
  | .storage_location _ => true
  | .status _ => true
  | .chain_of_custody _ => true
  | .notes _ => true
  | .evidence_number _ => false
  | .other _ => false

/-- Application of one SET assignment of the evidence UPDATE statement. -/
def applyEUpd (r : EvidenceRow) : EUpd → EvidenceRow
  | .description v => { r with description := v }
  | .storage_location v => { r with storage_location := v }
  | .status v => { r with status := v }
  | .chain_of_custody v => { r with chain_of_custody := v }
  | .notes v => { r with notes := v }
  | .evidence_number v => { r with evidence_number := v }
  | .other _ => r

/-- CHECK constraint of the evidence table evaluated on an updated row. -/
def evidenceRowOk (r : EvidenceRow) : Bool :=
  evidenceStatuses.contains r.status

/-- `Database.update_evidence` (src/database.py lines 567-585): note that the
parent violation's evidence_count is not touched. -/
def update_evidence (db : DB) (now : Int) (evidence_id : Nat)
    (kwargs : List EUpd) : Bool × DB :=
  if (kwargs.filter eIsAllowed).isEmpty then (false, db)
  else if db.evidence.all (fun r =>
      !(r.evidence_id == evidence_id) ||
      evidenceRowOk { (kwargs.filter eIsAllowed).foldl applyEUpd r with updated_at := now }) then
    (true, { db with
      evidence := db.evidence.map (fun r =>
        if r.evidence_id == evidence_id then
          { (kwargs.filter eIsAllowed).foldl applyEUpd r with updated_at := now }
        else r) })
  else (false, db)

/-- `Database.list_users` (src/database.py lines 278-295): role uses the
truthiness guard `if role:`, is_active uses `if is_active is not None:`;
no ORDER BY. -/
def list_users (db : DB) (role : Option String) (is_active : Option Bool) :
    List UserRow :=
  db.users.filter (fun u =>
    optFilterStr role u.role &&
    (match is_active with
     | none => true
     | some b => u.is_active == b))

/-- `Database.list_violations` (src/database.py lines 353-381): every filter
is guarded by Python truthiness (`if officer_id:` etc.), the date bounds are
inclusive, and the result is ordered by violation_date DESC. -/
def list_violations (db : DB) (officer_id : Option Nat)
    (status violation_type severity_level : Option String)
    (start_date end_date : Option Int) : List ViolationRow :=
  sortBy (fun a b => decide (b.violation_date ≤ a.violation_date))
    (db.violations.filter (fun v =>
      optFilterNat officer_id v.officer_id &&
      optFilterStr status v.status &&
      optFilterStr violation_type v.violation_type &&
      optFilterStr severity_level v.severity_level &&
      optGE start_date v.violation_date &&
      optLE end_date v.violation_date))

/-- `Database.list_seizures` (src/database.py lines 436-457): truthiness
guards on every filter; ordered by seizure_date DESC. -/
def list_seizures (db : DB) (violation_id : Option Nat)
    (status item_category : Option String) (officer_id : Option Nat) :
    List SeizureRow :=
  sortBy (fun a b => decide (b.seizure_date ≤ a.seizure_date))
    (db.seizures.filter (fun s =>
      optFilterNat violation_id s.violation_id &&
      optFilterStr status s.status &&
      optFilterStr item_category s.item_category &&
      optFilterNat officer_id s.officer_id))

/-- `Database.list_infractions` (src/database.py lines 509-527): truthiness
guards; ordered by created_at DESC. -/
def list_infractions (db : DB) (violation_id : Option Nat)
    (status infraction_type : Option String) : List InfractionRow :=
  sortBy (fun a b => decide (b.created_at ≤ a.created_at))
    (db.infractions.filter (fun i =>
      optFilterNat violation_id i.violation_id &&
      optFilterStr status i.status &&
      optFilterStr infraction_type i.infraction_type))

/-- `Database.list_evidence_by_violation` (src/database.py lines 559-565):
unconditional WHERE on violation_id; ordered by collection_date DESC. -/
def list_evidence_by_violation (db : DB) (violation_id : Nat) : List EvidenceRow :=
  sortBy (fun a b => decide (b.collection_date ≤ a.collection_date))
    (db.evidence.filter (fun e => e.violation_id == violation_id))

/-- `Database.log_activity` (src/database.py lines 589-603): append-only
INSERT with a server-assigned timestamp. -/
def log_activity (db : DB) (now : Int) (user_id : Nat)
    (action_type description : String) (entity_type : Option String)
    (entity_id : Option Nat) (changes ip_address : Option String) :
    (Except DBErr Nat) × DB :=
  (Except.ok db.next_log_id,
    { db with
      activity_log := db.activity_log ++
        [{ log_id := db.next_log_id, user_id, action_type, entity_type
           entity_id, description := some description, changes, ip_address
           timestamp := now }]
      next_log_id := db.next_log_id + 1 })

/-- `Database.get_activity_log` (src/database.py lines 605-618): truthiness
guard on user_id (`if user_id:`), ordered by timestamp DESC, LIMIT applied. -/
def get_activity_log (db : DB) (user_id : Option Nat) (limit : Nat) :
    List LogRow :=
  (sortBy (fun a b => decide (b.timestamp ≤ a.timestamp))
    (db.activity_log.filter (fun r => optFilterNat user_id r.user_id))).take limit

/-- Result shape of `Database.get_violation_statistics`: a dict with a total,
three insertion-ordered breakdown dicts, and a fine sum. -/
structure VStats where
  total_violations : Nat
  violations_by_type : List (String × Nat)
  violations_by_severity : List (String × Nat)
  violations_by_status : List (String × Nat)
  total_fines : Int
  deriving DecidableEq, Repr

/-- One loop step of the fine accumulation in `get_violation_statistics`
(Python `if violation['fine_amount']:` skips NULL and 0 alike). -/
def fineStep (acc : Int) (v : ViolationRow) : Int :=
  match v.fine_amount with
  | some f => if f ≠ 0 then acc + f else acc
  | none => acc

/-- `Database.get_violation_statistics` (src/database.py lines 622-663):
select all violations in the inclusive optional window, then total :=
len(rows) and one pass over the rows building the three breakdown dicts and
the fine sum (the single Python loop is rendered as one fold per component,
which computes the same values). -/
def get_violation_statistics (db : DB) (start_date end_date : Option Int) :
    VStats :=
  let vs := db.violations.filter (fun v =>
    optGE start_date v.violation_date && optLE end_date v.violation_date)
  { total_violations := vs.length
    violations_by_type := vs.foldl (fun m v => bump m v.violation_type) []
    violations_by_severity := vs.foldl (fun m v => bump m v.severity_level) []
    violations_by_status := vs.foldl (fun m v => bump m v.status) []
    total_fines := vs.foldl fineStep 0 }

/-- Result shape of `Database.get_seizure_statistics`. -/
structure SStats where
  total_seizures : Nat
  seizures_by_category : List (String × Nat)
  seizures_by_status : List (String × Nat)
  total_estimated_value : Int
  deriving DecidableEq, Repr

/-- One loop step of the value accumulation in `get_seizure_statistics`. -/
def valueStep (acc : Int) (s : SeizureRow) : Int :=
  match s.estimated_value with
  | some v => if v ≠ 0 then acc + v else acc
  | none => acc

/-- `Database.get_seizure_statistics` (src/database.py lines 688-724). -/
def get_seizure_statistics (db : DB) (start_date end_date : Option Int) :
    SStats :=
  let ss := db.seizures.filter (fun s =>
    optGE start_date s.seizure_date && optLE end_date s.seizure_date)
  { total_seizures := ss.length
    seizures_by_category := ss.foldl (fun m s => bump m s.item_category) []
    seizures_by_status := ss.foldl (fun m s => bump m s.status) []
    total_estimated_value := ss.foldl valueStep 0 }

/-- The distinct officer ids of a violation list, in first-appearance order
(SQL GROUP BY group formation order). -/
def officerIds (rows : List ViolationRow) : List Nat :=
  rows.foldl (fun acc v =>
    if acc.contains v.officer_id then acc else acc ++ [v.officer_id]) []

/-- COUNT(*) and SUM(fine_amount) of one officer group (SQL SUM skips NULLs
and is NULL when every summand is NULL). -/
def perfFor (rows : List ViolationRow) (o : Nat) : OfficerPerf :=
  let mine := rows.filter (fun v => v.officer_id == o)
  { officer_id := o
    violations_count := mine.length
    total_fines := mine.foldl (fun acc v =>
      match v.fine_amount with
      | some f => some (acc.getD 0 + f)
      | none => acc) none }

/-- `Database.get_officer_performance` (src/database.py lines 665-686):
truthiness guard on officer_id, inclusive optional date window, GROUP BY
officer_id, ORDER BY violations_count DESC. -/
def get_officer_performance (db : DB) (officer_id : Option Nat)
    (start_date end_date : Option Int) : List OfficerPerf :=
  let rows := db.violations.filter (fun v =>
    optFilterNat officer_id v.officer_id &&
    optGE start_date v.violation_date && optLE end_date v.violation_date)
  sortBy (fun a b => decide (b.violations_count ≤ a.violations_count))
    ((officerIds rows).map (perfFor rows))

/-- Start of the calendar day of a timestamp
(`date.replace(hour=0, minute=0, second=0)`). -/
def startOfDay (t : Int) : Int := t / 86400 * 86400

/-- End of the calendar day of a timestamp
(`date.replace(hour=23, minute=59, second=59)`). -/
def endOfDay (t : Int) : Int := startOfDay t + 86399

/-- The calendar date of a timestamp (`date.date()`, the UNIQUE key of the
statistics table). -/
def dateOf (t : Int) : Int := t / 86400

/-- `Database.save_daily_statistics` (src/database.py lines 763-794): compute
the day's violation, seizure and officer statistics and INSERT OR REPLACE the
statistics row keyed by the date.  REPLACE deletes any row with the same
UNIQUE date and inserts a fresh row, which receives a new AUTOINCREMENT
stat_id; columns absent from the INSERT list (total_infractions,
top_violators, timestamps) take their schema defaults.  `saveRow` is the row
the INSERT writes; `save_daily_statistics` performs the REPLACE. -/
def saveRow (db : DB) (date : Int) (now : Int) : StatRow :=
  let vstats := get_violation_statistics db (some (startOfDay date)) (some (endOfDay date))
  let sstats := get_seizure_statistics db (some (startOfDay date)) (some (endOfDay date))
  let perf := get_officer_performance db none (some (startOfDay date)) (some (endOfDay date))
  { stat_id := db.next_stat_id, date := dateOf date
    total_violations := vstats.total_violations
    total_seizures := sstats.total_seizures
    total_infractions := 0
    total_fines := vstats.total_fines
    violations_by_type := vstats.violations_by_type
    violations_by_severity := vstats.violations_by_severity
    top_violators := none
    officer_performance := perf
    created_at := now, updated_at := now }

def save_daily_statistics (db : DB) (date : Int) (now : Int) : Bool × DB :=
  (true,
    { db with
      statistics := db.statistics.filter (fun r => !(r.date == dateOf date)) ++
        [saveRow db date now]
      next_stat_id := db.next_stat_id + 1 })

/-- `Database.get_daily_statistics` (src/database.py lines 796-800). -/
def get_daily_statistics (db : DB) (date : Int) : Option StatRow :=
  db.statistics.find? (fun r => r.date == dateOf date)

/-- The statistics content of a statistics row: every column except the
auto-assigned surrogate stat_id and the write timestamps. -/
def statContent (r : StatRow) :
    Int × Nat × Nat × Nat × Int × List (String × Nat) × List (String × Nat) ×
      Option String × List OfficerPerf :=
  (r.date, r.total_violations, r.total_seizures, r.total_infractions,
   r.total_fines, r.violations_by_type, r.violations_by_severity,
   r.top_violators, r.officer_performance)

/-! Helper lemmas about the list machinery of the embedding. -/

theorem insertBy_perm (le : α → α → Bool) (a : α) (l : List α) :
    List.Perm (insertBy le a l) (a :: l) := by
  induction l with
  | nil => simp [insertBy]
  | cons b bs ih =>
    simp only [insertBy]
    split
    · exact List.Perm.refl _
    · exact ((ih.cons b).trans (List.Perm.swap a b bs))

theorem sortBy_perm (le : α → α → Bool) (l : List α) :
    List.Perm (sortBy le l) l := by
  induction l with
  | nil => simp [sortBy]
  | cons a as ih =>
    exact (insertBy_perm le a (sortBy le as)).trans (ih.cons a)

theorem lookupCount_bump (m : List (String × Nat)) (k t : String) :
    lookupCount (bump m k) t =
      lookupCount m t + (if k = t then 1 else 0) := by
  induction m with
  | nil =>
    by_cases h : k = t <;> simp [bump, lookupCount, h]
  | cons p rest ih =>
    obtain ⟨k', n⟩ := p
    by_cases h1 : k' = k
    · subst h1
      by_cases h2 : k' = t <;> simp [bump, lookupCount, h2]
    · by_cases h2 : k' = t
      · subst h2
        have hkt : ¬ k = k' := fun h => h1 h.symm
        simp [bump, lookupCount, h1, hkt]
      · simp [bump, lookupCount, h1, h2, ih]

theorem lookupCount_foldl_bump (f : α → String) (l : List α)
    (m : List (String × Nat)) (t : String) :
    lookupCount (l.foldl (fun m v => bump m (f v)) m) t =
      lookupCount m t + l.countP (fun v => f v == t) := by
  induction l generalizing m with
  | nil => simp
  | cons v vs ih =>
    rw [List.foldl_cons, ih, lookupCount_bump, List.countP_cons]
    by_cases h : f v = t
    all_goals simp [h]
    all_goals omega

theorem foldl_fineStep_eq (l : List ViolationRow) (a : Int) :
    l.foldl fineStep a = a + (l.map (fun v => v.fine_amount.getD 0)).sum := by
  induction l generalizing a with
  | nil => simp
  | cons v vs ih =>
    rw [List.foldl_cons, ih]
    rcases h : v.fine_amount with _ | f
    · simp [fineStep, h]
    · by_cases hf : f = 0
      all_goals simp [fineStep, h, hf]
      all_goals ring

theorem find?_append_of_all_false (p : α → Bool) (l : List α) (x : α)
    (h : ∀ a ∈ l, p a = false) :
    (l ++ [x]).find? p = if p x then some x else none := by
  induction l with
  | nil =>
    simp only [List.nil_append, List.find?]
    by_cases hx : p x <;> simp [hx]
  | cons a as ih =>
    have ha := h a (List.mem_cons_self a as)
    simp only [List.cons_append, List.find?, ha]
    exact ih (fun b hb => h b (List.mem_cons_of_mem a hb))

theorem map_eq_self_of_mem (f : α → α) (l : List α)
    (h : ∀ a ∈ l, f a = a) : l.map f = l := by
  induction l with
  | nil => rfl
  | cons a as ih =>
    simp only [List.map_cons, h a (List.mem_cons_self a as)]
    rw [ih (fun b hb => h b (List.mem_cons_of_mem a hb))]

theorem filter_of_filter_not (p : α → Bool) (l : List α) :
    (l.filter (fun a => !(p a))).filter p = [] := by
  induction l with
  | nil => rfl
  | cons a as ih =>
    by_cases h : p a <;> simp [List.filter_cons, h, ih]

theorem filter_not_idem (p : α → Bool) (l : List α) :
    (l.filter (fun a => !(p a))).filter (fun a => !(p a)) =
      l.filter (fun a => !(p a)) := by
  induction l with
  | nil => rfl
  | cons a as ih =>
    by_cases h : p a <;> simp [List.filter_cons, h, ih]

/-! Claim theorems. -/

/-- C10: a falsy filter argument — the integer 0 (or the empty string) —
behaves exactly as an omitted filter: `list_violations` with officer_id 0,
`list_seizures` with violation_id 0 and `get_activity_log` with user_id 0
(and `list_violations` with status "") each return the unfiltered result. -/
theorem falsy_filter_behaves_as_omitted :
    (∀ db : DB, list_violations db (some 0) none none none none none =
      list_violations db none none none none none none) ∧
    (∀ db : DB, list_seizures db (some 0) none none none =
      list_seizures db none none none none) ∧
    (∀ (db : DB) (limit : Nat), get_activity_log db (some 0) limit =
      get_activity_log db none limit) ∧
    (∀ db : DB, list_violations db none (some "") none none none none =
      list_violations db none none none none none none) :=
  ⟨fun _ => rfl, fun _ => rfl, fun _ _ => rfl, fun _ => rfl⟩

/-- C1 (code bug): `create_seizure` with a violation_id (9999) that matches
no row of the violations table succeeds and inserts the orphan row — there is
no application-level parent lookup and SQLite foreign keys are never
enabled — instead of failing with a ValidationError and leaving the table
unchanged as the spec requires. -/
theorem orphan_seizure_insert_succeeds :
    (create_seizure emptyDB 0 "SZ-2024-001" 9999 "sedan" 1 "vehicle" 3 0
        none none none none).1 = Except.ok 1 ∧
    (create_seizure emptyDB 0 "SZ-2024-001" 9999 "sedan" 1 "vehicle" 3 0
        none none none none).2.seizures.length = 1 ∧
    emptyDB.violations = [] :=
  ⟨rfl, rfl, rfl⟩

/-- C2 (code bug): after a successful `create_evidence`, the parent
violation's evidence_count still reads 0 while one evidence row references
the violation — no code path ever recomputes or increments evidence_count,
so the cached derived value drifts from the true count. -/
theorem evidence_count_drifts_after_create :
    (let db1 := (create_user emptyDB 0 "officer1" "o1@pd.gov" "hash" "Officer One"
        "officer" none none none).2
     let db2 := (create_violation db1 10 "V-1" "John Doe" 50 "traffic" "minor"
        "Main St" 1 none none none none none none none).2
     let db3 := (create_evidence db2 60 "E-1" 1 "photo" "scene photo" 1 55
        none none none none none none).2
     ((get_violation db3 1).map (fun v => v.evidence_count) = some 0) ∧
     (db3.evidence.filter (fun e => e.violation_id == 1)).length = 1) := by
  decide

/-- C3: when the store already holds a violation with the given
violation_number and the supplied enumerated fields are in-domain, a second
`create_violation` with that number fails with the UNIQUE-constraint error
(the spec's Conflict) and returns the store byte-for-byte unchanged — no new
or partial row. -/
theorem duplicate_violation_number_conflict (db : DB) (now : Int)
    (vn nm : String) (vdate : Int) (vt sev loc : String) (off : Nat)
    (lic ph addr ds : Option String) (lat lon fine : Option Int)
    (hdup : db.violations.any (fun v => v.violation_number == vn) = true)
    (ht : violationTypes.contains vt = true)
    (hs : severityLevels.contains sev = true) :
    create_violation db now vn nm vdate vt sev loc off lic ph addr ds lat lon fine =
      (Except.error DBErr.uniqueConstraint, db) := by
  simp [create_violation, ht, hs, hdup]
  exact ⟨by simpa using ht, by simpa using hs⟩

/-- Witness for C3: a concrete store holding violation number "V-1" rejects a
second create with number "V-1" and is unchanged. -/
theorem duplicate_violation_number_conflict_witness :
    create_violation
        (create_violation emptyDB 0 "V-1" "John" 10 "traffic" "minor" "Main" 1
          none none none none none none none).2
        5 "V-1" "Jane" 20 "parking" "moderate" "Elm" 2
        none none none none none none none =
      (Except.error DBErr.uniqueConstraint,
        (create_violation emptyDB 0 "V-1" "John" 10 "traffic" "minor" "Main" 1
          none none none none none none none).2) :=
  duplicate_violation_number_conflict _ 5 "V-1" "Jane" 20 "parking" "moderate"
    "Elm" 2 none none none none none none none
    (by decide) (by decide) (by decide)

theorem foldl_applyVUpd_number (ups : List VUpd) (r : ViolationRow)
    (h : ∀ u ∈ ups, vIsAllowed u = true) :
    (ups.foldl applyVUpd r).violation_number = r.violation_number := by
  induction ups generalizing r with
  | nil => rfl
  | cons u us ih =>
    have hu := h u (List.mem_cons_self u us)
    rw [List.foldl_cons, ih _ (fun x hx => h x (List.mem_cons_of_mem u hx))]
    cases u <;> simp_all [applyVUpd, vIsAllowed]

/-- C9: `update_violation` never changes the violation_number column of any
row, whatever keyword arguments are passed — violation_number is outside the
allow-list, so no SET clause can touch it. -/
theorem update_violation_preserves_number (db : DB) (now : Int)
    (violation_id : Nat) (kwargs : List VUpd) :
    (update_violation db now violation_id kwargs).2.violations.map
        (fun v => v.violation_number) =
      db.violations.map (fun v => v.violation_number) := by
  have hfold : ∀ r : ViolationRow,
      ((kwargs.filter vIsAllowed).foldl applyVUpd r).violation_number =
        r.violation_number :=
    fun r => foldl_applyVUpd_number _ _ (fun u hu => (List.mem_filter.mp hu).2)
  unfold update_violation
  split
  · rfl
  · split
    · simp only [List.map_map]
      refine List.map_congr_left (fun r _ => ?_)
      simp only [Function.comp_apply]
      split
      · exact hfold r
      · rfl
    · rfl

theorem filter_eq_nil_of_all_not (p : α → Bool) (l : List α)
    (h : l.all (fun a => !(p a)) = true) : l.filter p = [] := by
  induction l with
  | nil => rfl
  | cons a as ih =>
    have ha := List.all_eq_true.mp h a (List.mem_cons_self a as)
    have has : as.all (fun a => !(p a)) = true :=
      List.all_eq_true.mpr (fun x hx =>
        List.all_eq_true.mp h x (List.mem_cons_of_mem a hx))
    simp only [Bool.not_eq_true'] at ha
    simp [List.filter_cons, ha, ih has]

/-- C5: an update whose keyword set is empty or contains only fields outside
the entity's allow-list returns `False` ("nothing changed") and leaves the
store — every field of every row, updated_at included — untouched, for all
five entities. -/
theorem disallowed_update_is_noop :
    (∀ (db : DB) (now : Int) (id : Nat) (kw : List UUpd),
      kw.all (fun k => !(uIsAllowed k)) = true →
      update_user db now id kw = (false, db)) ∧
    (∀ (db : DB) (now : Int) (id : Nat) (kw : List VUpd),
      kw.all (fun k => !(vIsAllowed k)) = true →
      update_violation db now id kw = (false, db)) ∧
    (∀ (db : DB) (now : Int) (id : Nat) (kw : List SUpd),
      kw.all (fun k => !(sIsAllowed k)) = true →
      update_seizure db now id kw = (false, db)) ∧
    (∀ (db : DB) (now : Int) (id : Nat) (kw : List IUpd),
      kw.all (fun k => !(iIsAllowed k)) = true →
      update_infraction db now id kw = (false, db)) ∧
    (∀ (db : DB) (now : Int) (id : Nat) (kw : List EUpd),
      kw.all (fun k => !(eIsAllowed k)) = true →
      update_evidence db now id kw = (false, db)) := by
  refine ⟨fun db now id kw h => ?_, fun db now id kw h => ?_,
    fun db now id kw h => ?_, fun db now id kw h => ?_, fun db now id kw h => ?_⟩
  · simp [update_user, filter_eq_nil_of_all_not _ _ h]
  · simp [update_violation, filter_eq_nil_of_all_not _ _ h]
  · simp [update_seizure, filter_eq_nil_of_all_not _ _ h]
  · simp [update_infraction, filter_eq_nil_of_all_not _ _ h]
  · simp [update_evidence, filter_eq_nil_of_all_not _ _ h]

/-- Witness for C5: concrete no-op updates — an unknown field name and the
identity-defining number fields are filtered out, and an empty set is a
no-op — each returning `false` with the store unchanged. -/
theorem disallowed_update_is_noop_witness :
    update_user emptyDB 7 1 [UUpd.other "nickname"] = (false, emptyDB) ∧
    update_violation emptyDB 7 1 [VUpd.violation_number "V-9", VUpd.other "x"] =
      (false, emptyDB) ∧
    update_seizure emptyDB 7 1 [] = (false, emptyDB) ∧
    update_infraction emptyDB 7 1 [IUpd.infraction_number "I-9"] = (false, emptyDB) ∧
    update_evidence emptyDB 7 1 [EUpd.evidence_number "E-9"] = (false, emptyDB) :=
  ⟨disallowed_update_is_noop.1 emptyDB 7 1 _ (by decide),
   disallowed_update_is_noop.2.1 emptyDB 7 1 _ (by decide),
   disallowed_update_is_noop.2.2.1 emptyDB 7 1 _ (by decide),
   disallowed_update_is_noop.2.2.2.1 emptyDB 7 1 _ (by decide),
   disallowed_update_is_noop.2.2.2.2 emptyDB 7 1 _ (by decide)⟩

/-- Counterexample to C4: on the empty store, `update_violation` for the
nonexistent id 1 with the allow-listed field status reports success (`True`)
— there is no NotFound signal, because the zero-row UPDATE commits without
any rowcount check. -/
theorem update_nonexistent_reports_success :
    (update_violation emptyDB 0 1 [VUpd.status "closed"]).1 = true ∧
    emptyDB.violations.all (fun v => !(v.violation_id == 1)) = true ∧
    ([VUpd.status "closed"].filter vIsAllowed).isEmpty = false := by
  decide

/-- C4 as amended: an update of a nonexistent id with a non-empty set of
allow-listed fields reports success (returns `True`) and leaves the store
unchanged — it does not fail with NotFound — for all five entities. -/
theorem update_nonexistent_is_silent_success :
    (∀ (db : DB) (now : Int) (id : Nat) (kw : List UUpd),
      db.users.all (fun r => !(r.user_id == id)) = true →
      (kw.filter uIsAllowed).isEmpty = false →
      update_user db now id kw = (true, db)) ∧
    (∀ (db : DB) (now : Int) (id : Nat) (kw : List VUpd),
      db.violations.all (fun r => !(r.violation_id == id)) = true →
      (kw.filter vIsAllowed).isEmpty = false →
      update_violation db now id kw = (true, db)) ∧
    (∀ (db : DB) (now : Int) (id : Nat) (kw : List SUpd),
      db.seizures.all (fun r => !(r.seizure_id == id)) = true →
      (kw.filter sIsAllowed).isEmpty = false →
      update_seizure db now id kw = (true, db)) ∧
    (∀ (db : DB) (now : Int) (id : Nat) (kw : List IUpd),
      db.infractions.all (fun r => !(r.infraction_id == id)) = true →
      (kw.filter iIsAllowed).isEmpty = false →
      update_infraction db now id kw = (true, db)) ∧
    (∀ (db : DB) (now : Int) (id : Nat) (kw : List EUpd),
      db.evidence.all (fun r => !(r.evidence_id == id)) = true →
      (kw.filter eIsAllowed).isEmpty = false →
      update_evidence db now id kw = (true, db)) := by
  refine ⟨fun db now id kw hid hne => ?_, fun db now id kw hid hne => ?_,
    fun db now id kw hid hne => ?_, fun db now id kw hid hne => ?_,
    fun db now id kw hid hne => ?_⟩
  · have hall : ∀ (f : UserRow → Bool),
        db.users.all (fun r => !(r.user_id == id) || f r) = true :=
      fun f => List.all_eq_true.mpr (fun r hr => by
        rw [List.all_eq_true.mp hid r hr]; rfl)
    have hmap : ∀ (f : UserRow → UserRow),
        db.users.map (fun r => if r.user_id = id then f r else r) = db.users :=
      fun f => map_eq_self_of_mem _ _ (fun r hr => by
        have h := List.all_eq_true.mp hid r hr
        simp only [Bool.not_eq_true'] at h
        exact if_neg (ne_of_beq_false h))
    simp [update_user, hne, hall, hmap]
  · have hall : ∀ (f : ViolationRow → Bool),
        db.violations.all (fun r => !(r.violation_id == id) || f r) = true :=
      fun f => List.all_eq_true.mpr (fun r hr => by
        rw [List.all_eq_true.mp hid r hr]; rfl)
    have hmap : ∀ (f : ViolationRow → ViolationRow),
        db.violations.map (fun r => if r.violation_id = id then f r else r) =
          db.violations :=
      fun f => map_eq_self_of_mem _ _ (fun r hr => by
        have h := List.all_eq_true.mp hid r hr
        simp only [Bool.not_eq_true'] at h
        exact if_neg (ne_of_beq_false h))
    simp [update_violation, hne, hall, hmap]
  · have hall : ∀ (f : SeizureRow → Bool),
        db.seizures.all (fun r => !(r.seizure_id == id) || f r) = true :=
      fun f => List.all_eq_true.mpr (fun r hr => by
        rw [List.all_eq_true.mp hid r hr]; rfl)
    have hmap : ∀ (f : SeizureRow → SeizureRow),
        db.seizures.map (fun r => if r.seizure_id = id then f r else r) =
          db.seizures :=
      fun f => map_eq_self_of_mem _ _ (fun r hr => by
        have h := List.all_eq_true.mp hid r hr
        simp only [Bool.not_eq_true'] at h
        exact if_neg (ne_of_beq_false h))
    simp [update_seizure, hne, hall, hmap]
  · have hall : ∀ (f : InfractionRow → Bool),
        db.infractions.all (fun r => !(r.infraction_id == id) || f r) = true :=
      fun f => List.all_eq_true.mpr (fun r hr => by
        rw [List.all_eq_true.mp hid r hr]; rfl)
    have hmap : ∀ (f : InfractionRow → InfractionRow),
        db.infractions.map (fun r => if r.infraction_id = id then f r else r) =
          db.infractions :=
      fun f => map_eq_self_of_mem _ _ (fun r hr => by
        have h := List.all_eq_true.mp hid r hr
        simp only [Bool.not_eq_true'] at h
        exact if_neg (ne_of_beq_false h))
    simp [update_infraction, hne, hall, hmap]
  · have hall : ∀ (f : EvidenceRow → Bool),
        db.evidence.all (fun r => !(r.evidence_id == id) || f r) = true :=
      fun f => List.all_eq_true.mpr (fun r hr => by
        rw [List.all_eq_true.mp hid r hr]; rfl)
    have hmap : ∀ (f : EvidenceRow → EvidenceRow),
        db.evidence.map (fun r => if r.evidence_id = id then f r else r) =
          db.evidence :=
      fun f => map_eq_self_of_mem _ _ (fun r hr => by
        have h := List.all_eq_true.mp hid r hr
        simp only [Bool.not_eq_true'] at h
        exact if_neg (ne_of_beq_false h))
    simp [update_evidence, hne, hall, hmap]

/-- Witness for the amended C4: concrete updates of nonexistent ids on the
empty store, each reporting success and changing nothing. -/
theorem update_nonexistent_is_silent_success_witness :
    update_user emptyDB 0 3 [UUpd.email "a@b.c"] = (true, emptyDB) ∧
    update_violation emptyDB 0 3 [VUpd.status "closed"] = (true, emptyDB) ∧
    update_seizure emptyDB 0 3 [SUpd.status "released"] = (true, emptyDB) ∧
    update_infraction emptyDB 0 3 [IUpd.points 4] = (true, emptyDB) ∧
    update_evidence emptyDB 0 3 [EUpd.status "lost"] = (true, emptyDB) :=
  ⟨update_nonexistent_is_silent_success.1 emptyDB 0 3 _ (by decide) (by decide),
   update_nonexistent_is_silent_success.2.1 emptyDB 0 3 _ (by decide) (by decide),
   update_nonexistent_is_silent_success.2.2.1 emptyDB 0 3 _ (by decide) (by decide),
   update_nonexistent_is_silent_success.2.2.2.1 emptyDB 0 3 _ (by decide) (by decide),
   update_nonexistent_is_silent_success.2.2.2.2 emptyDB 0 3 _ (by decide) (by decide)⟩

/-- C6: for each of the five entities, when the store is well-formed (every
surrogate key below the AUTOINCREMENT counter) and the call passes its CHECK
and UNIQUE constraints, `create` returns the fresh counter value as the new
key, `get` on that key returns exactly the inserted record — every supplied
field with the supplied value — and the key differs from the key of every
previously created row of that entity. -/
theorem create_get_roundtrip_and_fresh_key :
    (∀ (db : DB) (now : Int) (username email pw fn role : String)
        (badge dept phone : Option String),
      db.users.all (fun u => decide (u.user_id < db.next_user_id)) = true →
      userRoles.contains role = true →
      db.users.any (fun u => u.username == username || u.email == email ||
        (match badge with
         | some b => u.badge_number == some b
         | none => false)) = false →
      (create_user db now username email pw fn role badge dept phone).1 =
          Except.ok db.next_user_id ∧
        get_user (create_user db now username email pw fn role badge dept phone).2
            db.next_user_id =
          some (mkUserRow db.next_user_id now username email pw fn role badge dept phone) ∧
        db.users.all (fun u => !(u.user_id == db.next_user_id)) = true) ∧
    (∀ (db : DB) (now : Int) (vn nm : String) (vdate : Int) (vt sev loc : String)
        (off : Nat) (lic ph addr ds : Option String) (lat lon fine : Option Int),
      db.violations.all (fun v => decide (v.violation_id < db.next_violation_id)) = true →
      violationTypes.contains vt = true →
      severityLevels.contains sev = true →
      db.violations.any (fun v => v.violation_number == vn) = false →
      (create_violation db now vn nm vdate vt sev loc off lic ph addr ds lat lon fine).1 =
          Except.ok db.next_violation_id ∧
        get_violation
            (create_violation db now vn nm vdate vt sev loc off lic ph addr ds lat lon fine).2
            db.next_violation_id =
          some (mkViolationRow db.next_violation_id now vn nm vdate vt sev loc off
            lic ph addr ds lat lon fine) ∧
        db.violations.all (fun v => !(v.violation_id == db.next_violation_id)) = true) ∧
    (∀ (db : DB) (now : Int) (sn : String) (vid : Nat) (idesc : String) (qty : Int)
        (cat : String) (off : Nat) (sdate : Int) (ev : Option Int)
        (ser stor cond : Option String),
      db.seizures.all (fun s => decide (s.seizure_id < db.next_seizure_id)) = true →
      seizureCategories.contains cat = true →
      db.seizures.any (fun s => s.seizure_number == sn) = false →
      (create_seizure db now sn vid idesc qty cat off sdate ev ser stor cond).1 =
          Except.ok db.next_seizure_id ∧
        get_seizure (create_seizure db now sn vid idesc qty cat off sdate ev ser stor cond).2
            db.next_seizure_id =
          some (mkSeizureRow db.next_seizure_id now sn vid idesc qty cat off sdate
            ev ser stor cond) ∧
        db.seizures.all (fun s => !(s.seizure_id == db.next_seizure_id)) = true) ∧
    (∀ (db : DB) (now : Int) (inum : String) (vid : Nat) (ityp : String)
        (ds sref : Option String) (pts : Int) (minf maxf : Option Int),
      db.infractions.all
        (fun i => decide (i.infraction_id < db.next_infraction_id)) = true →
      db.infractions.any (fun i => i.infraction_number == inum) = false →
      (create_infraction db now inum vid ityp ds sref pts minf maxf).1 =
          Except.ok db.next_infraction_id ∧
        get_infraction (create_infraction db now inum vid ityp ds sref pts minf maxf).2
            db.next_infraction_id =
          some (mkInfractionRow db.next_infraction_id now inum vid ityp ds sref
            pts minf maxf) ∧
        db.infractions.all
          (fun i => !(i.infraction_id == db.next_infraction_id)) = true) ∧
    (∀ (db : DB) (now : Int) (en : String) (vid : Nat) (etyp edesc : String)
        (coll : Nat) (cdate : Int) (fp : Option String) (fs : Option Int)
        (mt cloc sloc nts : Option String),
      db.evidence.all (fun e => decide (e.evidence_id < db.next_evidence_id)) = true →
      evidenceTypes.contains etyp = true →
      db.evidence.any (fun e => e.evidence_number == en) = false →
      (create_evidence db now en vid etyp edesc coll cdate fp fs mt cloc sloc nts).1 =
          Except.ok db.next_evidence_id ∧
        get_evidence
            (create_evidence db now en vid etyp edesc coll cdate fp fs mt cloc sloc nts).2
            db.next_evidence_id =
          some (mkEvidenceRow db.next_evidence_id now en vid etyp edesc coll cdate
            fp fs mt cloc sloc nts) ∧
        db.evidence.all (fun e => !(e.evidence_id == db.next_evidence_id)) = true) := by
  refine ⟨?_, ?_, ?_, ?_, ?_⟩
  · intro db now username email pw fn role badge dept phone hwf hrole huniq
    have hfresh : db.users.all (fun u => !(u.user_id == db.next_user_id)) = true :=
      List.all_eq_true.mpr (fun u hu => by
        have h := of_decide_eq_true (List.all_eq_true.mp hwf u hu)
        simp only [Bool.not_eq_true', beq_eq_false_iff_ne]
        omega)
    have hcreate : create_user db now username email pw fn role badge dept phone =
        (Except.ok db.next_user_id,
          { db with
            users := db.users ++
              [mkUserRow db.next_user_id now username email pw fn role badge dept phone]
            next_user_id := db.next_user_id + 1 }) := by
      simp [create_user, hrole, huniq]
      simpa using hrole
    refine ⟨by rw [hcreate], ?_, hfresh⟩
    rw [hcreate]
    show (db.users ++
      [mkUserRow db.next_user_id now username email pw fn role badge dept phone]).find?
        (fun u => u.user_id == db.next_user_id) = _
    rw [find?_append_of_all_false _ _ _ (fun u hu => by
      simpa using List.all_eq_true.mp hfresh u hu)]
    simp [mkUserRow]
  · intro db now vn nm vdate vt sev loc off lic ph addr ds lat lon fine hwf ht hs huniq
    have hfresh :
        db.violations.all (fun v => !(v.violation_id == db.next_violation_id)) = true :=
      List.all_eq_true.mpr (fun v hv => by
        have h := of_decide_eq_true (List.all_eq_true.mp hwf v hv)
        simp only [Bool.not_eq_true', beq_eq_false_iff_ne]
        omega)
    have hcreate :
        create_violation db now vn nm vdate vt sev loc off lic ph addr ds lat lon fine =
        (Except.ok db.next_violation_id,
          { db with
            violations := db.violations ++
              [mkViolationRow db.next_violation_id now vn nm vdate vt sev loc off
                lic ph addr ds lat lon fine]
            next_violation_id := db.next_violation_id + 1 }) := by
      simp [create_violation, ht, hs, huniq]
      exact ⟨by simpa using ht, by simpa using hs⟩
    refine ⟨by rw [hcreate], ?_, hfresh⟩
    rw [hcreate]
    show (db.violations ++
      [mkViolationRow db.next_violation_id now vn nm vdate vt sev loc off
        lic ph addr ds lat lon fine]).find?
        (fun v => v.violation_id == db.next_violation_id) = _
    rw [find?_append_of_all_false _ _ _ (fun v hv => by
      simpa using List.all_eq_true.mp hfresh v hv)]
    simp [mkViolationRow]
  · intro db now sn vid idesc qty cat off sdate ev ser stor cond hwf hcat huniq
    have hfresh :
        db.seizures.all (fun s => !(s.seizure_id == db.next_seizure_id)) = true :=
      List.all_eq_true.mpr (fun s hs => by
        have h := of_decide_eq_true (List.all_eq_true.mp hwf s hs)
        simp only [Bool.not_eq_true', beq_eq_false_iff_ne]
        omega)
    have hcreate :
        create_seizure db now sn vid idesc qty cat off sdate ev ser stor cond =
        (Except.ok db.next_seizure_id,
          { db with
            seizures := db.seizures ++
              [mkSeizureRow db.next_seizure_id now sn vid idesc qty cat off sdate
                ev ser stor cond]
            next_seizure_id := db.next_seizure_id + 1 }) := by
      simp [create_seizure, hcat, huniq]
      simpa using hcat
    refine ⟨by rw [hcreate], ?_, hfresh⟩
    rw [hcreate]
    show (db.seizures ++
      [mkSeizureRow db.next_seizure_id now sn vid idesc qty cat off sdate
        ev ser stor cond]).find? (fun s => s.seizure_id == db.next_seizure_id) = _
    rw [find?_append_of_all_false _ _ _ (fun s hs => by
      simpa using List.all_eq_true.mp hfresh s hs)]
    simp [mkSeizureRow]
  · intro db now inum vid ityp ds sref pts minf maxf hwf huniq
    have hfresh :
        db.infractions.all
          (fun i => !(i.infraction_id == db.next_infraction_id)) = true :=
      List.all_eq_true.mpr (fun i hi => by
        have h := of_decide_eq_true (List.all_eq_true.mp hwf i hi)
        simp only [Bool.not_eq_true', beq_eq_false_iff_ne]
        omega)
    have hcreate :
        create_infraction db now inum vid ityp ds sref pts minf maxf =
        (Except.ok db.next_infraction_id,
          { db with
            infractions := db.infractions ++
              [mkInfractionRow db.next_infraction_id now inum vid ityp ds sref
                pts minf maxf]
            next_infraction_id := db.next_infraction_id + 1 }) := by
      simp [create_infraction, huniq]
    refine ⟨by rw [hcreate], ?_, hfresh⟩
    rw [hcreate]
    show (db.infractions ++
      [mkInfractionRow db.next_infraction_id now inum vid ityp ds sref
        pts minf maxf]).find? (fun i => i.infraction_id == db.next_infraction_id) = _
    rw [find?_append_of_all_false _ _ _ (fun i hi => by
      simpa using List.all_eq_true.mp hfresh i hi)]
    simp [mkInfractionRow]
  · intro db now en vid etyp edesc coll cdate fp fs mt cloc sloc nts hwf htyp huniq
    have hfresh :
        db.evidence.all (fun e => !(e.evidence_id == db.next_evidence_id)) = true :=
      List.all_eq_true.mpr (fun e he => by
        have h := of_decide_eq_true (List.all_eq_true.mp hwf e he)
        simp only [Bool.not_eq_true', beq_eq_false_iff_ne]
        omega)
    have hcreate :
        create_evidence db now en vid etyp edesc coll cdate fp fs mt cloc sloc nts =
        (Except.ok db.next_evidence_id,
          { db with
            evidence := db.evidence ++
              [mkEvidenceRow db.next_evidence_id now en vid etyp edesc coll cdate
                fp fs mt cloc sloc nts]
            next_evidence_id := db.next_evidence_id + 1 }) := by
      simp [create_evidence, htyp, huniq]
      simpa using htyp
    refine ⟨by rw [hcreate], ?_, hfresh⟩
    rw [hcreate]
    show (db.evidence ++
      [mkEvidenceRow db.next_evidence_id now en vid etyp edesc coll cdate
        fp fs mt cloc sloc nts]).find? (fun e => e.evidence_id == db.next_evidence_id) = _
    rw [find?_append_of_all_false _ _ _ (fun e he => by
      simpa using List.all_eq_true.mp hfresh e he)]
    simp [mkEvidenceRow]

/-- Witness for C6: concrete creates on the fresh store for all five
entities, each returning key 1, round-tripping through `get`, and fresh. -/
theorem create_get_roundtrip_and_fresh_key_witness :
    ((create_user emptyDB 0 "ofc1" "a@pd.gov" "pw" "Name" "officer" none none none).1 =
        Except.ok 1 ∧
      get_user (create_user emptyDB 0 "ofc1" "a@pd.gov" "pw" "Name" "officer"
          none none none).2 1 =
        some (mkUserRow 1 0 "ofc1" "a@pd.gov" "pw" "Name" "officer" none none none) ∧
      emptyDB.users.all (fun u => !(u.user_id == 1)) = true) ∧
    ((create_violation emptyDB 0 "V-1" "John" 10 "traffic" "minor" "Main" 1
          none none none none none none (some 150)).1 = Except.ok 1 ∧
      get_violation (create_violation emptyDB 0 "V-1" "John" 10 "traffic" "minor"
          "Main" 1 none none none none none none (some 150)).2 1 =
        some (mkViolationRow 1 0 "V-1" "John" 10 "traffic" "minor" "Main" 1
          none none none none none none (some 150)) ∧
      emptyDB.violations.all (fun v => !(v.violation_id == 1)) = true) ∧
    ((create_seizure emptyDB 0 "S-1" 1 "car" 1 "vehicle" 1 20
          (some 5000) none none none).1 = Except.ok 1 ∧
      get_seizure (create_seizure emptyDB 0 "S-1" 1 "car" 1 "vehicle" 1 20
          (some 5000) none none none).2 1 =
        some (mkSeizureRow 1 0 "S-1" 1 "car" 1 "vehicle" 1 20 (some 5000)
          none none none) ∧
      emptyDB.seizures.all (fun s => !(s.seizure_id == 1)) = true) ∧
    ((create_infraction emptyDB 0 "I-1" 1 "speeding" none none 2 none none).1 =
        Except.ok 1 ∧
      get_infraction (create_infraction emptyDB 0 "I-1" 1 "speeding" none none 2
          none none).2 1 =
        some (mkInfractionRow 1 0 "I-1" 1 "speeding" none none 2 none none) ∧
      emptyDB.infractions.all (fun i => !(i.infraction_id == 1)) = true) ∧
    ((create_evidence emptyDB 0 "E-1" 1 "photo" "scene" 1 30
          none none none none none none).1 = Except.ok 1 ∧
      get_evidence (create_evidence emptyDB 0 "E-1" 1 "photo" "scene" 1 30
          none none none none none none).2 1 =
        some (mkEvidenceRow 1 0 "E-1" 1 "photo" "scene" 1 30
          none none none none none none) ∧
      emptyDB.evidence.all (fun e => !(e.evidence_id == 1)) = true) :=
  ⟨create_get_roundtrip_and_fresh_key.1 emptyDB 0 "ofc1" "a@pd.gov" "pw" "Name"
      "officer" none none none (by decide) (by decide) (by decide),
   create_get_roundtrip_and_fresh_key.2.1 emptyDB 0 "V-1" "John" 10 "traffic"
      "minor" "Main" 1 none none none none none none (some 150)
      (by decide) (by decide) (by decide) (by decide),
   create_get_roundtrip_and_fresh_key.2.2.1 emptyDB 0 "S-1" 1 "car" 1 "vehicle"
      1 20 (some 5000) none none none (by decide) (by decide) (by decide),
   create_get_roundtrip_and_fresh_key.2.2.2.1 emptyDB 0 "I-1" 1 "speeding"
      none none 2 none none (by decide) (by decide),
   create_get_roundtrip_and_fresh_key.2.2.2.2 emptyDB 0 "E-1" 1 "photo" "scene"
      1 30 none none none none none none (by decide) (by decide) (by decide)⟩

/-- C7: over any (optional, inclusive) date window, `get_violation_statistics`
returns exactly the total count, the per-type, per-severity and per-status
counts, and the fine sum (an unset fine counting as zero) of the violations
that `list_violations` returns for the same window with no other filters —
the aggregator and the listing never disagree. -/
theorem statistics_agree_with_listing (db : DB) (s e : Option Int) :
    (get_violation_statistics db s e).total_violations =
      (list_violations db none none none none s e).length ∧
    (∀ t, lookupCount (get_violation_statistics db s e).violations_by_type t =
      (list_violations db none none none none s e).countP
        (fun v => v.violation_type == t)) ∧
    (∀ t, lookupCount (get_violation_statistics db s e).violations_by_severity t =
      (list_violations db none none none none s e).countP
        (fun v => v.severity_level == t)) ∧
    (∀ t, lookupCount (get_violation_statistics db s e).violations_by_status t =
      (list_violations db none none none none s e).countP
        (fun v => v.status == t)) ∧
    (get_violation_statistics db s e).total_fines =
      ((list_violations db none none none none s e).map
        (fun v => v.fine_amount.getD 0)).sum := by
  have hperm : List.Perm (list_violations db none none none none s e)
      (db.violations.filter
        (fun v => optGE s v.violation_date && optLE e v.violation_date)) :=
    sortBy_perm _ _
  refine ⟨?_, fun t => ?_, fun t => ?_, fun t => ?_, ?_⟩
  · rw [hperm.length_eq]
    rfl
  · rw [hperm.countP_eq]
    simp only [get_violation_statistics]
    rw [lookupCount_foldl_bump]
    simp [lookupCount]
  · rw [hperm.countP_eq]
    simp only [get_violation_statistics]
    rw [lookupCount_foldl_bump]
    simp [lookupCount]
  · rw [hperm.countP_eq]
    simp only [get_violation_statistics]
    rw [lookupCount_foldl_bump]
    simp [lookupCount]
  · rw [(hperm.map _).sum_eq]
    simp only [get_violation_statistics]
    rw [foldl_fineStep_eq]
    simp

/-- Counterexample to C8: on the empty store, running
`save_daily_statistics` twice for the same date does not leave the same
stored row as a single run — the second INSERT OR REPLACE deletes the first
row and inserts a fresh one with a new AUTOINCREMENT stat_id, so the rows
are not identical even though the recomputed statistics are. -/
theorem daily_snapshot_not_bytewise_idempotent :
    ¬ ((save_daily_statistics (save_daily_statistics emptyDB 0 0).2 0 0).2.statistics =
        (save_daily_statistics emptyDB 0 0).2.statistics) := by
  decide

/-- C8 as amended: running `save_daily_statistics` twice for the same date
over a fixed underlying entity state leaves exactly one statistics row keyed
by that date, and that row's statistics content — every column except the
auto-assigned surrogate stat_id and the write timestamps — is identical to
the row produced by a single run. -/
theorem daily_snapshot_upsert_content_idempotent (db : DB) (date n1 n2 : Int) :
    ((save_daily_statistics (save_daily_statistics db date n1).2 date n2).2.statistics.filter
        (fun r => r.date == dateOf date)).length = 1 ∧
    ((save_daily_statistics (save_daily_statistics db date n1).2 date n2).2.statistics.find?
        (fun r => r.date == dateOf date)).map statContent =
      ((save_daily_statistics db date n1).2.statistics.find?
        (fun r => r.date == dateOf date)).map statContent := by
  have hrow1 : ((saveRow db date n1).date == dateOf date) = true := by
    simp [saveRow]
  have hrow2 : ((saveRow (save_daily_statistics db date n1).2 date n2).date ==
      dateOf date) = true := by
    simp [saveRow]
  have hdb1 : (save_daily_statistics db date n1).2.statistics =
      db.statistics.filter (fun r => !(r.date == dateOf date)) ++
        [saveRow db date n1] := rfl
  have hdb2 : (save_daily_statistics (save_daily_statistics db date n1).2 date n2).2.statistics =
      db.statistics.filter (fun r => !(r.date == dateOf date)) ++
        [saveRow (save_daily_statistics db date n1).2 date n2] := by
    show (save_daily_statistics db date n1).2.statistics.filter
        (fun r => !(r.date == dateOf date)) ++
        [saveRow (save_daily_statistics db date n1).2 date n2] = _
    rw [hdb1, List.filter_append, filter_not_idem]
    simp [hrow1]
  have hpre : ∀ r ∈ db.statistics.filter (fun r => !(r.date == dateOf date)),
      (r.date == dateOf date) = false := fun r hr => by
    have h := (List.mem_filter.mp hr).2
    simpa using h
  constructor
  · rw [hdb2, List.filter_append, filter_of_filter_not]
    simp [hrow2]
  · rw [hdb2, hdb1, find?_append_of_all_false _ _ _ hpre,
      find?_append_of_all_false _ _ _ hpre, if_pos hrow2, if_pos hrow1]
    rfl

end PoliceDB
